import Mathlib

/-!
Shallow embedding of the gcloudsql client library (Go) for verifying its
natural-language specification.  Each definition is translated from the Go
source; file/line references point into the repository sources.

Conventions:
* Go strings are Lean `String`s; Go `time.Time` is modelled as a `Nat`
  (seconds since an arbitrary epoch, the Go zero time being `0`).
* Go `(value, error)` pairs are modelled either as `α × Option String`
  (when the value is returned alongside the error, as with Go named
  returns) or as `Except String α` (when only one of the two is used).
* Network interactions are modelled by passing the responses the remote
  side would produce as explicit arguments (an oracle), so the functions
  stay executable and deterministic.
* A polling loop that never observes a terminal status runs forever in Go;
  the model returns `none` when the supplied response stream is exhausted
  before the loop exits.
-/

namespace Gcloudsql

/-- AuthorizedNetwork, auth.go:123-127: one ACL entry of the instance. -/
structure AuthorizedNetwork where
  Value : String
  Name : String
  Kind : String
deriving DecidableEq, Repr

/-- Response, connector.go:25-38 / auth.go:130-143: the operation resource
returned by the gcloud sql api.  All fields are JSON strings. -/
structure Response where
  Kind : String
  TargetLink : String
  Status : String
  User : String
  InsertTime : String
  StartTime : String
  EndTime : String
  OperationType : String
  Name : String
  TargetID : String
  SelfLink : String
  TargetProject : String
deriving DecidableEq, Repr

/-- The Go zero value `Response{}` used by the empty-operation check at
connector.go:149 / auth.go:342. -/
def emptyResponse : Response :=
  { Kind := "", TargetLink := "", Status := "", User := "", InsertTime := ""
    StartTime := "", EndTime := "", OperationType := "", Name := ""
    TargetID := "", SelfLink := "", TargetProject := "" }

/-- SQLInstance, auth.go:98-120, reduced to the fields the verified
operations read: the authorized-network list
(`Settings.IPConfiguration.AuthorizedNetworks`) and the identifiers used to
build request URLs. -/
structure SQLInstance where
  Project : String
  Name : String
  AuthorizedNetworks : List AuthorizedNetwork
deriving DecidableEq, Repr

/-- AccessToken, auth.go:12-24: the unexported `token` and `expireTime`
fields plus the introspection field `ExpiresIn` (`expires_in`).  The other
introspection metadata fields play no role in the verified claims. -/
structure AccessToken where
  token : String
  expireTime : Nat
  ExpiresIn : Nat
deriving DecidableEq, Repr

/-- GenerateAccessToken, auth.go:26-61: stores the trimmed gcloud CLI
output as the token, then fills the introspection fields (here only
`ExpiresIn`) by unmarshalling the token-info response.  No code path
assigns `expireTime` (the unexported field is untouched by
`json.Unmarshal`, and `getExpireTime` is never invoked anywhere in the
repository), so the returned token keeps the zero time. -/
def GenerateAccessToken (cmdOutput : String) (expiresIn : Nat) : AccessToken :=
  { token := cmdOutput.trim, expireTime := 0, ExpiresIn := expiresIn }

/-- AccessToken.IsExpired, auth.go:63-65:
`at.expireTime.Before(time.Now())`, i.e. a strict comparison against the
current time. -/
def AccessToken.IsExpired (at' : AccessToken) (now : Nat) : Bool :=
  at'.expireTime < now

/-- AccessToken.getExpireTime, auth.go:67-72: assigns `time.Now()` to
`expireTime` and then evaluates `at.expireTime.Add(...)` whose result is
discarded (Go `Time.Add` returns a new value), so the stored expiry is the
assignment time itself, not `now + ExpiresIn` seconds. -/
def AccessToken.getExpireTime (at' : AccessToken) (now : Nat) : AccessToken :=
  { at' with expireTime := now }

/-- WhitelistIP's list update, auth.go:206-213: append a new entry
`{Value: value, Name: name, Kind: "sql#aclEntry"}` to the current list,
with no deduplication. -/
def whitelistNetworks (networks : List AuthorizedNetwork)
    (name value : String) : List AuthorizedNetwork :=
  networks ++ [{ Value := value, Name := name, Kind := "sql#aclEntry" }]

/-- BlacklistIP's list update, auth.go:223-230: rebuild the list keeping
exactly the entries whose `Value` differs from the argument, in order
(the Go loop appends each kept entry to a fresh slice). -/
def blacklistNetworks (networks : List AuthorizedNetwork)
    (value : String) : List AuthorizedNetwork :=
  networks.foldl (fun acc network =>
    if network.Value != value then acc ++ [network] else acc) []

/-- The invariant named by the spec: no two entries of the list share the
same `Value`. -/
def noDuplicateValues (networks : List AuthorizedNetwork) : Prop :=
  networks.Pairwise (fun a b => a.Value ≠ b.Value)

instance (networks : List AuthorizedNetwork) :
    Decidable (noDuplicateValues networks) := by
  unfold noDuplicateValues
  exact List.instDecidablePairwise networks

/-- Connection, auth.go:89-95, reduced to the fields the verified
operations read or write: the instance snapshot, the held access token and
the last operation response.  The `*sync.Mutex` field is modelled
separately by the event traces below, and `httpRequest` is transient
request-building state. -/
structure Connection where
  Instance : SQLInstance
  accessToken : AccessToken
  response : Response
deriving DecidableEq, Repr

/-- The Go zero value `Connection{}`. -/
def emptyConnection : Connection :=
  { Instance := { Project := "", Name := "", AuthorizedNetworks := [] }
    accessToken := { token := "", expireTime := 0, ExpiresIn := 0 }
    response := emptyResponse }

/-- Connection.GetResponse, auth.go:183-185: returns the last response
held by the connection. -/
def Connection.GetResponse (c : Connection) : Response :=
  c.response

/-- HTTP response as seen by ParseHTTPRequest after the body has been read:
status code, status line, and body bytes (connector.go:458-467; a transport
or read failure is modelled by passing `Except.error` instead of a value of
this type). -/
structure HTTPResponse where
  StatusCode : Nat
  Status : String
  Body : String
deriving DecidableEq, Repr

/-- Go's `http.StatusOK`. -/
def httpStatusOK : Nat := 200

/-- ParseHTTPRequest, connector.go:458-473 (the status-checking transport
used by the current code, matching spec section 4.2): execute the request
(`doResult` is the outcome of `http.DefaultClient.Do` plus reading the
body), fail with `"request returned " ++ response.Status` when the status
code is not `http.StatusOK`, and otherwise unmarshal the body into the
target. -/
def ParseHTTPRequest (doResult : Except String HTTPResponse)
    (unmarshal : String → Except String Response) : Except String Response :=
  match doResult with
  | .error e => .error e
  | .ok response =>
    if response.StatusCode ≠ httpStatusOK then
      .error ("request returned " ++ response.Status)
    else
      unmarshal response.Body

/-- The polling loop of waitUntilDone, connector.go:165-178 /
auth.go:359-372: while the stored status is not "DONE", sleep one second,
GET the operation's selfLink and overwrite the stored response with the
parsed result.  `polls` is the stream of outcomes the successive GETs
would produce; the result pairs the outcome (final response or the first
transport/decode error) with the number of sleep-then-GET cycles
performed, and is `none` when the stream is exhausted while the status is
still not "DONE" (in Go the loop would keep polling). -/
def waitLoop (r : Response) : List (Except String Response) →
    Option (Except String Response × Nat)
  | [] => if r.Status = "DONE" then some (.ok r, 0) else none
  | .error e :: _ =>
    if r.Status = "DONE" then some (.ok r, 0) else some (.error e, 1)
  | .ok next :: rest =>
    if r.Status = "DONE" then some (.ok r, 0)
    else (waitLoop next rest).map (fun pr => (pr.fst, pr.snd + 1))

/-- waitUntilDone, auth.go:341-375: fail immediately with
"Connection response is empty" when the stored response equals the zero
record (before any GET is issued), otherwise run the polling loop,
storing the freshly parsed response on every cycle.  The `Nat` component
counts the status GETs issued. -/
def waitUntilDone (c : Connection) (polls : List (Except String Response)) :
    Option (Except String Connection × Nat) :=
  if c.response = emptyResponse then
    some (.error "Connection response is empty", 0)
  else
    (waitLoop c.response polls).map (fun pr =>
      (pr.fst.map (fun final => { c with response := final }), pr.snd))

/-- The shared submit-then-poll shape of every public mutating operation
(modifySSLPolicy auth.go:266-299, updateAuthorizedNetworks
auth.go:235-264, SetUserPassword auth.go:302-339): parse the submission
response into `c.response`, returning any submission error unchanged, and
otherwise run waitUntilDone.  `submitResult` is the outcome of
ParseHTTPRequest on the PATCH/PUT submission. -/
def runMutatingOp (c : Connection) (submitResult : Except String Response)
    (polls : List (Except String Response)) :
    Option (Except String Connection) :=
  match submitResult with
  | .error e => some (.error e)
  | .ok r => (waitUntilDone { c with response := r } polls).map Prod.fst

/-- The literal text of `instanceRequestBodyTemplate`
(connector.go:247-258) that precedes the `range` action, with the
whitespace before the action removed by its `\x7b\x7b-` trim marker. -/
def instanceBodyOpen : String :=
  "\x7b\n\t\"settings\": \x7b\n\t\t\"ipConfiguration\": \x7b\n\t\t\t\"authorizedNetworks\": ["

/-- The literal text of `instanceRequestBodyTemplate` that follows the
`end` action (which carries a leading trim marker, so the whitespace
before it is removed). -/
def instanceBodyClose : String :=
  "\n\t\t\t]\n\t\t\x7d\n\t\x7d\n\x7d"

/-- One rendered array element of `instanceRequestBodyTemplate`: the
newline and indentation that survive the trim markers, then
`\x7b "value": "<Value>", "name": "<Name>" \x7d`. -/
def authorizedNetworkEntryText (n : AuthorizedNetwork) : String :=
  "\n\t\t\t\t\x7b \"value\": \"" ++ n.Value ++ "\", \"name\": \"" ++ n.Name ++ "\" \x7d"

/-- The `range $index, $element` loop of `instanceRequestBodyTemplate`:
each iteration emits `\x7b\x7bif $index\x7d\x7d,\x7b\x7bend\x7d\x7d`
(a comma for every index other than 0) followed by the element text. -/
def renderNetworksFrom (i : Nat) : List AuthorizedNetwork → String
  | [] => ""
  | n :: rest =>
    (if i = 0 then "" else ",") ++ authorizedNetworkEntryText n ++
      renderNetworksFrom (i + 1) rest

/-- The full rendering of `instanceRequestBodyTemplate` applied to a
network list, as Go `text/template` executes it (used by
updateAuthorizedNetworks, auth.go:249-250). -/
def renderInstanceRequestBody (networks : List AuthorizedNetwork) : String :=
  instanceBodyOpen ++ renderNetworksFrom 0 networks ++ instanceBodyClose

/-- Modelled from the spec: "comma-joined, no trailing comma" — the
elements of the list joined by single commas. -/
def commaJoined : List String → String
  | [] => ""
  | [s] => s
  | s :: rest => s ++ "," ++ commaJoined rest

/-- Lock/submit/poll events of one public mutating call, used to state the
locking discipline.  `acquire`/`release` are `c.lock.Lock()` and
`c.lock.Unlock()`, `submit` is the PATCH/PUT submission (NewHTTPRequest +
ParseHTTPRequest), `pollGET` is one status GET of the waitUntilDone
loop. -/
inductive Event where
  | acquire
  | release
  | submit
  | pollGET
deriving DecidableEq, Repr

/-- The status GETs performed by a waitUntilDone run of `n` cycles. -/
def pollEvents (n : Nat) : List Event :=
  List.replicate n .pollGET

/-- EnableSSL, auth.go:188-192: `c.lock.Lock()`, deferred
`c.lock.Unlock()`, then modifySSLPolicy(true) which submits the PATCH and
runs waitUntilDone, so the unlock happens after polling finishes. -/
def enableSSLEvents (n : Nat) : List Event :=
  [.acquire, .submit] ++ pollEvents n ++ [.release]

/-- DisableSSL, auth.go:195-199: same shape as EnableSSL with
modifySSLPolicy(false). -/
def disableSSLEvents (n : Nat) : List Event :=
  [.acquire, .submit] ++ pollEvents n ++ [.release]

/-- WhitelistIP, auth.go:202-216: `c.lock.Lock()`, deferred unlock, then
updateAuthorizedNetworks which submits the PATCH and runs
waitUntilDone. -/
def whitelistIPEvents (n : Nat) : List Event :=
  [.acquire, .submit] ++ pollEvents n ++ [.release]

/-- BlacklistIP, auth.go:219-233: same locking shape as WhitelistIP. -/
def blacklistIPEvents (n : Nat) : List Event :=
  [.acquire, .submit] ++ pollEvents n ++ [.release]

/-- SetUserPassword, auth.go:302-339 (identically connector.go:109-146):
builds and submits the PUT and runs waitUntilDone without ever touching
`c.lock`. -/
def setUserPasswordEvents (n : Nat) : List Event :=
  [.submit] ++ pollEvents n

/-- The locking discipline the spec asserts for a mutating call: the trace
opens by acquiring the lock, closes by releasing it, and everything in
between (the submission and the polls) happens while the lock is held. -/
def wellLocked (t : List Event) : Prop :=
  ∃ inner, t = Event.acquire :: inner ++ [Event.release] ∧
    Event.acquire ∉ inner ∧ Event.release ∉ inner

/-- NewConnection, auth.go:146-180.  Go shape:
`accessToken, err := GenerateAccessToken()` at auth.go:147 — `genResult`
models this `(value, error)` pair — after which `err` is overwritten by
`httpRequest, err := NewHTTPRequest(...)` at auth.go:164 before ever being
checked, so only the request-building error (`newReqErr`) and the
instance-fetch outcome (`fetchResult`, the `(sqlInstance, err)` of
ParseHTTPRequest at auth.go:170) decide the returned error. -/
def NewConnection (genResult : AccessToken × Option String)
    (newReqErr : Option String)
    (fetchResult : SQLInstance × Option String) :
    Connection × Option String :=
  let accessToken := genResult.fst
  match newReqErr with
  | some e => (emptyConnection, some e)
  | none =>
    match fetchResult.snd with
    | some e => (emptyConnection, some e)
    | none =>
      ({ Instance := fetchResult.fst, accessToken := accessToken
         response := emptyResponse }, none)

/-- A pending operation resource, as returned by a mutating submission. -/
def pendingResponse : Response :=
  { emptyResponse with Status := "PENDING", SelfLink := "https://sql/op/1" }

/-- A terminal operation resource. -/
def doneResponse : Response :=
  { emptyResponse with Status := "DONE", SelfLink := "https://sql/op/1" }

/-- A connection whose stored operation is pending. -/
def pendingConnection : Connection :=
  { emptyConnection with response := pendingResponse }

/-- A concrete non-success HTTP response. -/
def notFoundHTTPResponse : HTTPResponse :=
  { StatusCode := 404, Status := "404 Not Found", Body := "\x7b\x7d" }

/-! ## Theorems -/

theorem blacklistNetworks_eq_filter (networks : List AuthorizedNetwork)
    (value : String) :
    blacklistNetworks networks value =
      networks.filter (fun n => n.Value != value) := by
  suffices h : ∀ (l : List AuthorizedNetwork) (acc : List AuthorizedNetwork),
      l.foldl (fun acc network =>
        if network.Value != value then acc ++ [network] else acc) acc =
      acc ++ l.filter (fun n => n.Value != value) by
    simpa [blacklistNetworks] using h networks []
  intro l
  induction l with
  | nil => simp
  | cons n rest ih =>
    intro acc
    rw [List.foldl_cons, List.filter_cons]
    by_cases h : n.Value = value
    · have hb : (n.Value != value) = false := by simp [h]
      rw [hb]
      simpa using ih acc
    · have hb : (n.Value != value) = true := by simp [h]
      rw [hb]
      simpa [List.append_assoc] using ih (acc ++ [n])

/-- Claim C3, counterexample: whitelisting a value that is already present
appends a second entry with the identical value, so the list after the
mutation violates the no-duplicate-values invariant. -/
theorem whitelistIP_duplicate_value_cex :
    ¬ noDuplicateValues
      (whitelistNetworks
        [{ Value := "1.2.3.4/32", Name := "a", Kind := "sql#aclEntry" }]
        "office" "1.2.3.4/32") := by
  decide

/-- Claim C3, amended: after a BlacklistIP mutation on a list with no two
entries of identical value the result again has no two entries of
identical value, and the same holds for WhitelistIP provided the added
value is not already present in the list; WhitelistIP appends without
deduplication, so an already-present value yields duplicates. -/
theorem acl_mutation_noDuplicateValues
    (l : List AuthorizedNetwork) (name value : String)
    (h : noDuplicateValues l) :
    noDuplicateValues (blacklistNetworks l value) ∧
    (value ∉ l.map AuthorizedNetwork.Value →
      noDuplicateValues (whitelistNetworks l name value)) := by
  constructor
  · rw [blacklistNetworks_eq_filter]
    exact List.Pairwise.filter _ h
  · intro hv
    unfold noDuplicateValues whitelistNetworks
    rw [List.pairwise_append]
    refine ⟨h, List.pairwise_singleton _ _, ?_⟩
    intro a ha b hb
    simp only [List.mem_singleton] at hb
    subst hb
    intro hval
    have hmem : a.Value ∈ l.map AuthorizedNetwork.Value :=
      List.mem_map_of_mem AuthorizedNetwork.Value ha
    rw [hval] at hmem
    exact hv hmem

/-- Claim C3, witness for the amended theorem at a concrete list. -/
theorem acl_mutation_noDuplicateValues_witness :
    noDuplicateValues
      (blacklistNetworks
        [{ Value := "1.1.1.1", Name := "a", Kind := "sql#aclEntry" }] "2.2.2.2") ∧
    noDuplicateValues
      (whitelistNetworks
        [{ Value := "1.1.1.1", Name := "a", Kind := "sql#aclEntry" }]
        "office" "2.2.2.2") := by
  have h := acl_mutation_noDuplicateValues
    [{ Value := "1.1.1.1", Name := "a", Kind := "sql#aclEntry" }]
    "office" "2.2.2.2" (by decide)
  exact ⟨h.1, h.2 (by decide)⟩

/-- Claim C4: on any starting authorized-network list, WhitelistIP
("office", "1.2.3.4/32") followed by BlacklistIP("1.2.3.4/32") produces a
final submitted list equal to the starting list with every entry of value
"1.2.3.4/32" removed and all other entries kept in their original order;
in particular no entry of that value remains.  (The source's WhitelistIP
never writes the appended list back into `c.Instance`, auth.go:202-216,
so BlacklistIP recomputes from the starting snapshot; the second equation
shows that path yields the same filtered list.) -/
theorem whitelist_then_blacklist_removes_value
    (networks : List AuthorizedNetwork) :
    blacklistNetworks (whitelistNetworks networks "office" "1.2.3.4/32")
        "1.2.3.4/32" =
      networks.filter (fun n => n.Value != "1.2.3.4/32") ∧
    blacklistNetworks networks "1.2.3.4/32" =
      networks.filter (fun n => n.Value != "1.2.3.4/32") ∧
    ∀ n ∈ blacklistNetworks (whitelistNetworks networks "office" "1.2.3.4/32")
        "1.2.3.4/32", n.Value ≠ "1.2.3.4/32" := by
  have h1 : blacklistNetworks (whitelistNetworks networks "office" "1.2.3.4/32")
      "1.2.3.4/32" = networks.filter (fun n => n.Value != "1.2.3.4/32") := by
    rw [blacklistNetworks_eq_filter]
    unfold whitelistNetworks
    rw [List.filter_append]
    simp
  refine ⟨h1, blacklistNetworks_eq_filter networks "1.2.3.4/32", ?_⟩
  intro n hn
  rw [h1] at hn
  have := List.of_mem_filter hn
  simpa using this

theorem renderNetworksFrom_succ (l : List AuthorizedNetwork) (i j : Nat) :
    renderNetworksFrom (i + 1) l = renderNetworksFrom (j + 1) l := by
  induction l generalizing i j with
  | nil => rfl
  | cons n rest ih =>
    simp only [renderNetworksFrom, Nat.succ_ne_zero, if_neg, reduceIte]
    rw [ih (i + 1) (j + 1)]

theorem renderNetworksFrom_one_eq (l : List AuthorizedNetwork) (x : String) :
    x ++ renderNetworksFrom 1 l =
      commaJoined (x :: l.map authorizedNetworkEntryText) := by
  induction l generalizing x with
  | nil =>
    show x ++ "" = x
    simp
  | cons n rest ih =>
    show x ++ ("," ++ authorizedNetworkEntryText n ++ renderNetworksFrom 2 rest) =
      commaJoined (x :: authorizedNetworkEntryText n :: rest.map authorizedNetworkEntryText)
    rw [renderNetworksFrom_succ rest 1 0, ← String.append_assoc,
      ← String.append_assoc, String.append_assoc (x ++ ",")]
    rw [ih (authorizedNetworkEntryText n)]
    rfl

/-- Claim C9: the rendered ACL mutation body is the fixed JSON wrapper
around the entries of the list, each rendered with its value and name, in
order, joined by commas with no trailing comma; the empty list renders the
wrapper with an empty array. -/
theorem renderInstanceRequestBody_comma_joined
    (networks : List AuthorizedNetwork) :
    renderInstanceRequestBody networks =
      instanceBodyOpen ++
        commaJoined (networks.map authorizedNetworkEntryText) ++
        instanceBodyClose ∧
    renderInstanceRequestBody [] = instanceBodyOpen ++ instanceBodyClose := by
  constructor
  · cases networks with
    | nil => rfl
    | cons n rest =>
      unfold renderInstanceRequestBody
      show instanceBodyOpen ++
          ("" ++ authorizedNetworkEntryText n ++ renderNetworksFrom 1 rest) ++
          instanceBodyClose = _
      rw [String.append_assoc "", renderNetworksFrom_one_eq rest
        (authorizedNetworkEntryText n)]
      rfl
  · rfl

/-- Claim C1, counterexample: a SetUserPassword call (shown with one
polling cycle) submits its request and polls without ever acquiring the
Connection's lock, so the claimed lock discipline fails for it. -/
theorem setUserPasswordEvents_no_acquire :
    ¬ wellLocked (setUserPasswordEvents 1) ∧
    Event.acquire ∉ setUserPasswordEvents 1 ∧
    setUserPasswordEvents 1 = [Event.submit, Event.pollGET] := by
  refine ⟨?_, by decide, by decide⟩
  rintro ⟨inner, heq, -, -⟩
  have : Event.submit = Event.acquire := by
    have h2 : setUserPasswordEvents 1 = [Event.submit, Event.pollGET] := by decide
    rw [h2] at heq
    exact List.head_eq_of_cons_eq heq
  exact absurd this (by decide)

theorem wellLocked_bracketed (n : Nat) :
    wellLocked ([Event.acquire, Event.submit] ++ pollEvents n ++
      [Event.release]) := by
  refine ⟨Event.submit :: pollEvents n, by simp, ?_, ?_⟩ <;>
    simp [pollEvents, List.mem_replicate]

/-- Claim C1, amended: EnableSSL, DisableSSL, WhitelistIP and BlacklistIP
each acquire the Connection's exclusive lock before submitting and release
it only after polling completes (for any number of polling cycles), so
their submit-to-poll windows never overlap; SetUserPassword, however,
submits and polls without ever acquiring or releasing the lock. -/
theorem mutating_ops_lock_discipline (n : Nat) :
    wellLocked (enableSSLEvents n) ∧
    wellLocked (disableSSLEvents n) ∧
    wellLocked (whitelistIPEvents n) ∧
    wellLocked (blacklistIPEvents n) ∧
    Event.acquire ∉ setUserPasswordEvents n ∧
    Event.release ∉ setUserPasswordEvents n := by
  refine ⟨wellLocked_bracketed n, wellLocked_bracketed n,
    wellLocked_bracketed n, wellLocked_bracketed n, ?_, ?_⟩ <;>
    simp [setUserPasswordEvents, pollEvents, List.mem_replicate]

/-- Claim C2: an AccessToken generated with `expires_in = 3600` keeps the
zero expiry time (`getExpireTime` is never called, and even
when applied it stores the call time itself because the result of
`Time.Add` is discarded), so `IsExpired` already reports true immediately
after issuance, contrary to the claim. -/
theorem generateAccessToken_immediately_expired :
    (GenerateAccessToken "sometoken" 3600).expireTime = 0 ∧
    (GenerateAccessToken "sometoken" 3600).IsExpired 100 = true ∧
    ((GenerateAccessToken "sometoken" 3600).getExpireTime 100).expireTime = 100 ∧
    ((GenerateAccessToken "sometoken" 3600).getExpireTime 100).expireTime ≠
      100 + 3600 ∧
    ((GenerateAccessToken "sometoken" 3600).getExpireTime 100).IsExpired 101 =
      true := by
  refine ⟨rfl, by decide, rfl, by decide, by decide⟩

/-- Claim C6: NewConnection ignores the error produced by
GenerateAccessToken (the `err` of auth.go:147 is overwritten at
auth.go:164 before any check), so a failed credential acquisition followed
by a succeeding instance fetch returns a Connection with no error at
all — the credential error does not propagate. -/
theorem newConnection_swallows_credential_error :
    (NewConnection
      ({ token := "", expireTime := 0, ExpiresIn := 0 },
        some "token introspection failed")
      none
      ({ Project := "p1", Name := "i1", AuthorizedNetworks := [] }, none)).snd
      = none := by
  rfl

/-- Claim C5: whenever the executed request's response status is outside
the success class, ParseHTTPRequest fails with the error carrying the
status ("request returned <status line>") instead of decoding the body,
and the coordinator surfaces exactly that error for the mutating call. -/
theorem parseHTTPRequest_non_success_fails
    (resp : HTTPResponse) (unmarshal : String → Except String Response)
    (c : Connection) (polls : List (Except String Response))
    (h : resp.StatusCode < 200 ∨ 299 < resp.StatusCode) :
    ParseHTTPRequest (.ok resp) unmarshal =
      .error ("request returned " ++ resp.Status) ∧
    runMutatingOp c (ParseHTTPRequest (.ok resp) unmarshal) polls =
      some (.error ("request returned " ++ resp.Status)) := by
  have hne : resp.StatusCode ≠ httpStatusOK := by
    unfold httpStatusOK
    rcases h with h | h <;> omega
  have h1 : ParseHTTPRequest (.ok resp) unmarshal =
      .error ("request returned " ++ resp.Status) := by
    simp only [ParseHTTPRequest]
    rw [if_pos hne]
  exact ⟨h1, by rw [h1]; rfl⟩

/-- Claim C5, witness at a concrete 404 response. -/
theorem parseHTTPRequest_non_success_fails_witness :
    ParseHTTPRequest (.ok notFoundHTTPResponse) (fun _ => .ok emptyResponse) =
      .error ("request returned " ++ notFoundHTTPResponse.Status) ∧
    runMutatingOp emptyConnection
      (ParseHTTPRequest (.ok notFoundHTTPResponse)
        (fun _ => .ok emptyResponse)) [] =
      some (.error ("request returned " ++ notFoundHTTPResponse.Status)) :=
  parseHTTPRequest_non_success_fails notFoundHTTPResponse
    (fun _ => .ok emptyResponse) emptyConnection [] (by decide)

theorem waitLoop_cycle_count (rs : List Response) :
    ∀ (r : Response) (res : Except String Response) (n : Nat),
    waitLoop r (rs.map Except.ok) = some (res, n) →
    n = ((r.Status :: rs.map Response.Status).takeWhile
      (fun s => s != "DONE")).length := by
  induction rs with
  | nil =>
    intro r res n h
    unfold waitLoop at h
    by_cases hd : r.Status = "DONE"
    · rw [if_pos hd] at h
      cases h
      simp [hd]
    · rw [if_neg hd] at h
      cases h
  | cons x rs ih =>
    intro r res n h
    rw [List.map_cons] at h
    unfold waitLoop at h
    by_cases hd : r.Status = "DONE"
    · rw [if_pos hd] at h
      cases h
      simp [hd]
    · rw [if_neg hd] at h
      cases heq : waitLoop x (rs.map Except.ok) with
      | none => rw [heq] at h; cases h
      | some pr =>
        rw [heq] at h
        cases h
        have hb : (r.Status != "DONE") = true := by simp [hd]
        rw [List.map_cons, List.takeWhile_cons, hb]
        rw [ih x pr.fst pr.snd (by rw [heq])]
        simp

/-- Claim C7: the polling loop performs one sleep-then-GET cycle per
non-DONE status in the observed status sequence (the submission response's
status followed by the successive poll responses' statuses); in
particular, when the submitted operation is pending and the first GET
already returns DONE the call completes in exactly one poll, and for the
observed status sequence PENDING, PENDING, DONE it completes after exactly
two sleep-then-poll cycles. -/
theorem waitUntilDone_cycle_counts
    (c : Connection) (d p : Response)
    (hne : c.response ≠ emptyResponse)
    (hnd : c.response.Status ≠ "DONE")
    (hp : p.Status = "PENDING")
    (hd : d.Status = "DONE") :
    (∀ (r : Response) (rs : List Response) (res : Except String Response)
        (n : Nat),
      waitLoop r (rs.map Except.ok) = some (res, n) →
      n = ((r.Status :: rs.map Response.Status).takeWhile
        (fun s => s != "DONE")).length) ∧
    waitUntilDone c [.ok d] = some (.ok { c with response := d }, 1) ∧
    (c.response.Status = "PENDING" →
      waitUntilDone c [.ok p, .ok d] =
        some (.ok { c with response := d }, 2)) := by
  have hloop1 : waitLoop c.response [.ok d] = some (.ok d, 1) := by
    unfold waitLoop
    rw [if_neg hnd]
    unfold waitLoop
    rw [if_pos hd]
    rfl
  have hpne : p.Status ≠ "DONE" := by rw [hp]; decide
  have hloop2 : waitLoop c.response [.ok p, .ok d] = some (.ok d, 2) := by
    unfold waitLoop
    rw [if_neg hnd]
    unfold waitLoop
    rw [if_neg hpne]
    unfold waitLoop
    rw [if_pos hd]
    rfl
  refine ⟨fun r rs => waitLoop_cycle_count rs r, ?_, fun _ => ?_⟩
  · unfold waitUntilDone
    rw [if_neg hne, hloop1]
    rfl
  · unfold waitUntilDone
    rw [if_neg hne, hloop2]
    rfl

/-- Claim C7, witness: a pending connection polled with DONE completes in
one cycle, and polled with PENDING then DONE completes in two. -/
theorem waitUntilDone_cycle_counts_witness :
    waitUntilDone pendingConnection [.ok doneResponse] =
      some (.ok { pendingConnection with response := doneResponse }, 1) ∧
    waitUntilDone pendingConnection [.ok pendingResponse, .ok doneResponse] =
      some (.ok { pendingConnection with response := doneResponse }, 2) := by
  have h := waitUntilDone_cycle_counts pendingConnection doneResponse
    pendingResponse (by decide) (by decide) (by decide) (by decide)
  exact ⟨h.2.1, h.2.2 (by decide)⟩

/-- Claim C8: when the stored operation response is the zero record,
waitUntilDone fails immediately with "Connection response is empty" and
issues zero status GETs, whatever responses the selfLink would have
produced. -/
theorem waitUntilDone_empty_operation
    (c : Connection) (polls : List (Except String Response))
    (h : c.response = emptyResponse) :
    waitUntilDone c polls = some (.error "Connection response is empty", 0) := by
  unfold waitUntilDone
  rw [if_pos h]

/-- Claim C8, witness: the zero connection, even with a DONE response
available at the selfLink, fails without polling. -/
theorem waitUntilDone_empty_operation_witness :
    waitUntilDone emptyConnection [.ok doneResponse] =
      some (.error "Connection response is empty", 0) :=
  waitUntilDone_empty_operation emptyConnection [.ok doneResponse] rfl

theorem waitLoop_done_of_ok (polls : List (Except String Response)) :
    ∀ (r f : Response) (n : Nat),
    waitLoop r polls = some (.ok f, n) → f.Status = "DONE" := by
  induction polls with
  | nil =>
    intro r f n h
    unfold waitLoop at h
    by_cases hd : r.Status = "DONE"
    · rw [if_pos hd] at h
      cases h
      exact hd
    · rw [if_neg hd] at h
      cases h
  | cons p rest ih =>
    intro r f n h
    cases p with
    | error e =>
      unfold waitLoop at h
      by_cases hd : r.Status = "DONE"
      · rw [if_pos hd] at h
        cases h
        exact hd
      · rw [if_neg hd] at h
        simp at h
    | ok next =>
      unfold waitLoop at h
      by_cases hd : r.Status = "DONE"
      · rw [if_pos hd] at h
        cases h
        exact hd
      · rw [if_neg hd] at h
        cases heq : waitLoop next rest with
        | none => rw [heq] at h; simp at h
        | some pr =>
          obtain ⟨res, m⟩ := pr
          rw [heq] at h
          simp only [Option.map_some', Option.some.injEq, Prod.mk.injEq] at h
          exact ih next f m (by rw [heq, h.1])

/-- Claim C10: whenever a mutating operation's submit-then-poll run
returns without error, the connection's stored response — as returned by
GetResponse — has status "DONE". -/
theorem mutating_op_success_status_done
    (c : Connection) (submit : Except String Response)
    (polls : List (Except String Response)) (c' : Connection)
    (h : runMutatingOp c submit polls = some (.ok c')) :
    c'.GetResponse.Status = "DONE" := by
  cases submit with
  | error e => simp [runMutatingOp] at h
  | ok r =>
    simp only [runMutatingOp, waitUntilDone] at h
    by_cases hemp : r = emptyResponse
    · rw [if_pos hemp] at h
      simp at h
    · rw [if_neg hemp] at h
      cases heq : waitLoop r polls with
      | none => rw [heq] at h; simp at h
      | some pr =>
        obtain ⟨res, m⟩ := pr
        rw [heq] at h
        cases res with
        | error e => simp [Except.map] at h
        | ok final =>
          have hf : final.Status = "DONE" :=
            waitLoop_done_of_ok polls r final m heq
          have h2 : ({ c with response := final } : Connection) = c' := by
            simpa [Except.map] using h
          rw [← h2]
          simpa [Connection.GetResponse] using hf

/-- Claim C10, witness: a concrete successful run ends with a DONE stored
response. -/
theorem mutating_op_success_status_done_witness :
    ({ emptyConnection with response := doneResponse } :
      Connection).GetResponse.Status = "DONE" :=
  mutating_op_success_status_done emptyConnection (.ok pendingResponse)
    [.ok doneResponse] { emptyConnection with response := doneResponse }
    rfl

end Gcloudsql
